import Mathlib

/-!
Verification of the round controller `PipelineEnvironment` in
`agentverse/environments/pipeline.py`.

The controller owns four strategy objects (role assigner, decision maker,
executor, evaluator), an actor roster `agents` (a dict from role tag to an
actor or a list of actors), and the counters `cnt_turn`, `max_turn`,
`success`.  One call of `step` runs one round: role assignment, decision
making (dispatched between a manager-guided and a standard call), execution,
evaluation, the accept test, and `cnt_turn += 1`.

The embedding is a shallow one: Python exceptions become an
`Except PyError` result (a raise leaves the mutable state untouched, which
is faithful because the source mutates `success` and `cnt_turn` only after
the last point that can raise), the dict lookups `self.agents[k]` become
`dictGet` returning `keyError` on a missing key, and the four external
strategies are an `Oracle` record holding the values they return in the
round (the arguments the source passes to them that are fixed for the
round — actors, task description — are folded into the oracle).
-/

namespace AgentVerse

/-- Runtime class of an actor.  The source distinguishes actors only by the
check `str(type(manager)) == "<class ...ManagerAgent>"`, so the class is
either `ManagerAgent` or anything else. -/
inductive AgentCls where
  | managerAgent
  | otherAgent
deriving DecidableEq

/-- An actor: its runtime class and its `role_description` string. -/
structure Agent where
  cls : AgentCls
  role_description : String
deriving DecidableEq

/-- A value stored in the roster dict `self.agents`, whose Python type is
`Union[BaseAgent, List[BaseAgent]]`; the dynamic branch of `step` also
passes a plain string as the `manager` argument, so strings are one more
shape this value can take inside `decision_making`. -/
inductive PyVal where
  | agentV (a : Agent)
  | agentListV (l : List Agent)
  | strV (s : String)
deriving DecidableEq

/-- The role tags of `AGENT_TYPES` used by the pipeline. -/
inductive AgentType where
  | ROLE_ASSIGNMENT
  | SOLVER
  | CRITIC
  | MANAGER
  | EVALUATION
deriving DecidableEq

/-- Runtime class of the configured decision maker.  The source dispatches
on `str(type(self.decision_maker)) == "<class ...DynamicDecisionMaker>"`,
so only `dynamic` versus anything else matters. -/
inductive DMCls where
  | dynamic
  | vertical
  | other
deriving DecidableEq

/-- The decision-maker strategy object, reduced to its runtime class. -/
structure DecisionMaker where
  cls : DMCls
deriving DecidableEq

/-- Python exceptions the translated code can raise. -/
inductive PyError where
  | keyError
  | indexError
  | typeError
deriving DecidableEq

/-- A message returned by a decision maker; `step` reads `.content` of the
first one. -/
structure Message where
  content : String
deriving DecidableEq

/-- Which `astep` overload `decision_making` calls: the manager-guided one
(with a `manager=` argument) or the standard one.  This marker only makes
the choice of call observable; it changes no data flow. -/
inductive Protocol where
  | managed
  | standard
deriving DecidableEq

/-- One element of a score sequence: a numeric rating, or a value for which
the comparison `s >= 8` raises `TypeError`. -/
inductive ScoreElem where
  | num (n : Int)
  | nonNum
deriving DecidableEq

/-- The polymorphic evaluator score: Python `None`, a `bool`, a `list` or
`tuple` of elements, or any other shape (a string, a number, ...). -/
inductive Score where
  | noneV
  | boolV (b : Bool)
  | seqV (l : List ScoreElem)
  | otherV
deriving DecidableEq

/-- Per-round outputs of the four external strategies.  Arguments the
source passes that are fixed over the round (the actors looked up from the
roster, `task_description`) are folded into the oracle; arguments that vary
(the assigned agents, the manager value, `previous_plan`, `advice`) stay
explicit. -/
structure Oracle where
  assignedAgents : List Agent
  planManaged : List Agent → PyVal → String → String → List Message
  planStandard : List Agent → String → String → List Message
  execResult : String → String
  evalResult : String → Score × String

/-- The controller state: the roster dict, the four strategy objects (the
three besides the decision maker are opaque tags), the task description and
the three counters of `PipelineEnvironment`. -/
structure Env where
  agents : AgentType → Option PyVal
  role_assigner : String
  decision_maker : DecisionMaker
  executor : String
  evaluator : String
  task_description : String
  cnt_turn : Int
  max_turn : Int
  success : Bool

/-- The local `advice = "No advice yet."` set at the top of `step`. -/
def adviceInit : String := "No advice yet."

/-- The local `previous_plan = "No solution yet."` set at the top of
`step`. -/
def prevPlanInit : String := "No solution yet."

/-- Python dict subscription `self.agents[k]`: `KeyError` on a missing
key. -/
def dictGet (m : AgentType → Option PyVal) (k : AgentType) : Except PyError PyVal :=
  match m k with
  | none => Except.error PyError.keyError
  | some v => Except.ok v

/-- Translation of `role_assign`: looks up the ROLE_ASSIGNMENT, SOLVER and
CRITIC entries (each lookup can raise `KeyError`), builds
`[solver_entry] + critic_entry` (a `TypeError` unless the CRITIC entry is a
list), and returns the role assigner strategy output. -/
def role_assign (env : Env) (o : Oracle) : Except PyError (List Agent) :=
  (dictGet env.agents AgentType.ROLE_ASSIGNMENT).bind fun _ra =>
    (dictGet env.agents AgentType.SOLVER).bind fun _sv =>
      (dictGet env.agents AgentType.CRITIC).bind fun cr =>
        match cr with
        | PyVal.agentListV _ => Except.ok o.assignedAgents
        | _ => Except.error PyError.typeError

/-- The check `str(type(manager)) == "<class ...ManagerAgent>"` inside
`decision_making`: true exactly for a single actor whose runtime class is
`ManagerAgent` (a list of actors or a string fails the check). -/
def isManagerAgentVal : PyVal → Bool
  | PyVal.agentV a => a.cls = AgentCls.managerAgent
  | _ => false

/-- Translation of `decision_making`: if the `manager` argument is a
`ManagerAgent` instance, call `astep` with the manager (manager-guided
protocol), else call `astep` without it (standard protocol).  The returned
`Protocol` marker records which call was made. -/
def decision_making (o : Oracle) (ag : List Agent) (manager : PyVal)
    (previous_plan advice : String) : Protocol × List Message :=
  if isManagerAgentVal manager then
    (Protocol.managed, o.planManaged ag manager previous_plan advice)
  else
    (Protocol.standard, o.planStandard ag previous_plan advice)

/-- The decision-making dispatch inside `step`: when
`str(type(self.decision_maker))` is the `DynamicDecisionMaker` class
string, `step` evaluates `self.agents[AGENT_TYPES.MANAGER]` (a `KeyError`
when the key is absent) and calls
`decision_making(agents, manager, previous_plan, advice)`; otherwise it
calls `decision_making(agents, previous_plan, advice)`, which binds the
string `previous_plan` to the `manager` parameter, `advice` to the
`previous_plan` parameter, and leaves `advice` at its default — the
positional shift present in the source. -/
def dispatch (env : Env) (o : Oracle) (ag : List Agent) :
    Except PyError (Protocol × List Message) :=
  if env.decision_maker.cls = DMCls.dynamic then
    (dictGet env.agents AgentType.MANAGER).bind fun m =>
      Except.ok (decision_making o ag m prevPlanInit adviceInit)
  else
    Except.ok (decision_making o ag (PyVal.strV prevPlanInit) adviceInit adviceInit)

/-- `plan = plan[0].content`: Python indexing raises `IndexError` on an
empty list. -/
def planFirst : List Message → Except PyError String
  | [] => Except.error PyError.indexError
  | m :: _ => Except.ok m.content

/-- The comparison `s >= 8` of one score element: `TypeError` when the
element is not comparable with the integer threshold. -/
def cmpGE8 : ScoreElem → Except PyError Bool
  | ScoreElem.num n => Except.ok (decide (8 ≤ n))
  | ScoreElem.nonNum => Except.error PyError.typeError

/-- The list comprehension `[s >= 8 for s in score]`: comparisons are
evaluated left to right and the first non-comparable element raises. -/
def listCompGE8 : List ScoreElem → Except PyError (List Bool)
  | [] => Except.ok []
  | e :: rest =>
    (cmpGE8 e).bind fun b => (listCompGE8 rest).bind fun bs => Except.ok (b :: bs)

/-- The accept condition of `step`:
`score is not None and ((isinstance(score, bool) and score is True) or
(isinstance(score, (list, tuple)) and all([s >= 8 for s in score])))`. -/
def scoreCondition : Score → Except PyError Bool
  | Score.noneV => Except.ok false
  | Score.boolV b => Except.ok b
  | Score.seqV l => (listCompGE8 l).bind fun bs => Except.ok (bs.all id)
  | Score.otherV => Except.ok false

/-- Translation of `step`: one round.  Returns the executor result, the
`success` flag as returned by the source, and the updated controller
state; an error is a Python exception escaping `step`, in which case the
state is unchanged (the source mutates `success` and `cnt_turn` only after
the last raising point). -/
def step (env : Env) (o : Oracle) : Except PyError (String × Bool × Env) :=
  (role_assign env o).bind fun ag =>
    (dispatch env o ag).bind fun pp =>
      (planFirst pp.2).bind fun plan =>
        let result := o.execResult plan
        (dictGet env.agents AgentType.EVALUATION).bind fun _ev =>
          let sa := o.evalResult result
          (scoreCondition sa.1).bind fun accept =>
            let env2 := if accept then { env with success := true } else env
            let env3 := { env2 with cnt_turn := env2.cnt_turn + 1 }
            Except.ok (result, env3.success, env3)

/-- Translation of `is_done`: `self.cnt_turn >= self.max_turn or
self.success`. -/
def is_done (env : Env) : Bool :=
  decide (env.max_turn ≤ env.cnt_turn) || env.success

/-- Translation of `set_task_description`. -/
def set_task_description (env : Env) (t : String) : Env :=
  { env with task_description := t }

/-- Translation of `reset`: only `self.cnt_turn = 0`. -/
def reset (env : Env) : Env :=
  { env with cnt_turn := 0 }

/-- One public operation on the controller as invoked by the session
driver.  A `step` whose round raises leaves the state as it was, because
the source mutates `success` and `cnt_turn` only after the last raising
point of the round. -/
inductive Op where
  | stepOp (o : Oracle)
  | resetOp
  | isDoneOp
  | setTaskOp (t : String)

/-- Apply one public operation to the controller state (`is_done` reads
the state and changes nothing). -/
def applyOp (env : Env) : Op → Env
  | Op.stepOp o =>
    match step env o with
    | Except.ok (_, _, e2) => e2
    | Except.error _ => env
  | Op.resetOp => reset env
  | Op.isDoneOp => env
  | Op.setTaskOp t => set_task_description env t

/-- Apply a sequence of public operations in order. -/
def runOps (env : Env) (ops : List Op) : Env :=
  ops.foldl applyOp env

/-! ## Concrete actors, rosters, environments and strategy outputs used in
the scenario theorems -/

/-- A sample role-assigner actor. -/
def assignerActor : Agent := ⟨AgentCls.otherAgent, "assigner"⟩

/-- A sample solver actor. -/
def solverActor : Agent := ⟨AgentCls.otherAgent, "solver"⟩

/-- A sample critic actor. -/
def criticActor : Agent := ⟨AgentCls.otherAgent, "critic"⟩

/-- A sample manager actor (runtime class `ManagerAgent`). -/
def managerActor : Agent := ⟨AgentCls.managerAgent, "manager"⟩

/-- A sample evaluation actor. -/
def evalActor : Agent := ⟨AgentCls.otherAgent, "grader"⟩

/-- A roster with every role tag present; CRITIC maps to a list as the
source requires, MANAGER to a single `ManagerAgent`. -/
def fullRoster : AgentType → Option PyVal
  | AgentType.ROLE_ASSIGNMENT => some (PyVal.agentV assignerActor)
  | AgentType.SOLVER => some (PyVal.agentV solverActor)
  | AgentType.CRITIC => some (PyVal.agentListV [criticActor])
  | AgentType.MANAGER => some (PyVal.agentV managerActor)
  | AgentType.EVALUATION => some (PyVal.agentV evalActor)

/-- The full roster with the MANAGER key absent. -/
def rosterNoManager : AgentType → Option PyVal
  | AgentType.MANAGER => none
  | k => fullRoster k

/-- Build a controller state over a given roster and decision-maker
class. -/
def mkEnv (ro : AgentType → Option PyVal) (dm : DMCls) (ct mt : Int)
    (su : Bool) : Env :=
  { agents := ro
    role_assigner := "role_description"
    decision_maker := ⟨dm⟩
    executor := "none"
    evaluator := "basic"
    task_description := "demo task"
    cnt_turn := ct
    max_turn := mt
    success := su }

/-- The base scenario state: full roster, non-dynamic (vertical) decision
maker, fresh counters. -/
def env0 : Env := mkEnv fullRoster DMCls.vertical 0 10 false

/-- Scenario state with a dynamic decision maker and no MANAGER entry. -/
def envDyn : Env := mkEnv rosterNoManager DMCls.dynamic 0 10 false

/-- Scenario state with a dynamic decision maker and a MANAGER entry. -/
def envDynManaged : Env := mkEnv fullRoster DMCls.dynamic 0 10 false

/-- Strategy outputs for a round the evaluator accepts with a boolean
score. -/
def boolTrueOracle : Oracle :=
  { assignedAgents := [solverActor, criticActor]
    planManaged := fun _ _ _ _ => [⟨"managed plan"⟩]
    planStandard := fun _ _ _ => [⟨"standard plan"⟩]
    execResult := fun p => p ++ " executed"
    evalResult := fun _ => (Score.boolV true, "ok") }

/-- Same round with a boolean-false score. -/
def boolFalseOracle : Oracle :=
  { boolTrueOracle with evalResult := fun _ => (Score.boolV false, "retry") }

/-- Same round with an empty assigned roster. -/
def emptyRosterOracle : Oracle :=
  { boolTrueOracle with assignedAgents := [] }

/-- Same round with a decision maker returning no plan candidates. -/
def emptyPlanOracle : Oracle :=
  { boolTrueOracle with planStandard := fun _ _ _ => [] }

/-- Same round with a score sequence containing a non-numeric element. -/
def badSeqOracle : Oracle :=
  { boolTrueOracle with
      evalResult := fun _ =>
        (Score.seqV [ScoreElem.num 9, ScoreElem.nonNum], "mixed") }

/-- Same round with an absent (None) score. -/
def noneScoreOracle : Oracle :=
  { boolTrueOracle with evalResult := fun _ => (Score.noneV, "no score") }

/-- Same round with an empty score sequence. -/
def emptySeqOracle : Oracle :=
  { boolTrueOracle with evalResult := fun _ => (Score.seqV [], "empty") }

/-! ## Characterization lemmas -/

/-- Helper: a successful round determines all the intermediate stage
values, and the new state updates `success` and `cnt_turn` exactly as the
tail of `step` does, leaving every other field alone. -/
theorem step_ok_elim {env : Env} {o : Oracle} {r : String} {s : Bool} {e2 : Env}
    (h : step env o = Except.ok (r, s, e2)) :
    ∃ ag proto m rest ev b,
      role_assign env o = Except.ok ag ∧
      dispatch env o ag = Except.ok (proto, m :: rest) ∧
      r = o.execResult m.content ∧
      dictGet env.agents AgentType.EVALUATION = Except.ok ev ∧
      scoreCondition (o.evalResult r).1 = Except.ok b ∧
      e2.success = (env.success || b) ∧
      s = e2.success ∧
      e2.cnt_turn = env.cnt_turn + 1 ∧
      e2.max_turn = env.max_turn ∧
      e2.agents = env.agents ∧
      e2.task_description = env.task_description ∧
      e2.role_assigner = env.role_assigner ∧
      e2.decision_maker = env.decision_maker ∧
      e2.executor = env.executor ∧
      e2.evaluator = env.evaluator := by
  unfold step at h
  cases hra : role_assign env o with
  | error e => rw [hra] at h; exact absurd h (by simp [Except.bind])
  | ok ag =>
    rw [hra] at h
    simp only [Except.bind] at h
    cases hd : dispatch env o ag with
    | error e => rw [hd] at h; exact absurd h (by simp [Except.bind])
    | ok pp =>
      obtain ⟨proto, plan⟩ := pp
      rw [hd] at h
      simp only [Except.bind] at h
      cases plan with
      | nil => exact absurd h (by simp [planFirst, Except.bind])
      | cons m rest =>
        simp only [planFirst, Except.bind] at h
        cases hev : dictGet env.agents AgentType.EVALUATION with
        | error e => rw [hev] at h; exact absurd h (by simp [Except.bind])
        | ok ev =>
          rw [hev] at h
          simp only [Except.bind] at h
          cases hsc : scoreCondition (o.evalResult (o.execResult m.content)).1 with
          | error e => rw [hsc] at h; exact absurd h (by simp [Except.bind])
          | ok b =>
            rw [hsc] at h
            simp only [Except.bind, Except.ok.injEq, Prod.mk.injEq] at h
            obtain ⟨hr, hs, he2⟩ := h
            subst hr
            subst hs
            subst he2
            refine ⟨ag, proto, m, rest, ev, b, rfl, hd, rfl, rfl, hsc,
              ?_, ?_, ?_, ?_, ?_, ?_, ?_, ?_, ?_, ?_⟩ <;>
              cases b <;> simp

/-- Helper: when every stage of the round succeeds, `step` succeeds and
the new state is the old one with `success` or-ed with the accept bit and
`cnt_turn` incremented. -/
theorem step_ok_intro {env : Env} {o : Oracle} {ag : List Agent} {proto : Protocol}
    {m : Message} {rest : List Message} {ev : PyVal} {b : Bool}
    (hra : role_assign env o = Except.ok ag)
    (hd : dispatch env o ag = Except.ok (proto, m :: rest))
    (hev : dictGet env.agents AgentType.EVALUATION = Except.ok ev)
    (hsc : scoreCondition (o.evalResult (o.execResult m.content)).1 = Except.ok b) :
    step env o = Except.ok (o.execResult m.content,
      (env.success || b),
      { env with success := env.success || b, cnt_turn := env.cnt_turn + 1 }) := by
  unfold step
  rw [hra]
  simp only [Except.bind]
  rw [hd]
  simp only [planFirst, Except.bind]
  rw [hev]
  rw [hsc]
  cases b with
  | false => simp
  | true => simp

/-- Helper: the comprehension succeeds with an all-true list exactly when
every element is a rating meeting the threshold. -/
theorem listCompGE8_all_iff : ∀ (l : List ScoreElem) (bs : List Bool),
    listCompGE8 l = Except.ok bs →
    (bs.all id = true ↔ ∀ e ∈ l, ∃ n, e = ScoreElem.num n ∧ 8 ≤ n) := by
  intro l
  induction l with
  | nil =>
    intro bs h
    simp [listCompGE8] at h
    subst h
    simp
  | cons e rest ih =>
    intro bs h
    cases e with
    | num n =>
      simp only [listCompGE8, cmpGE8, Except.bind] at h
      cases hrest : listCompGE8 rest with
      | error er => rw [hrest] at h; exact absurd h (by simp [Except.bind])
      | ok bs2 =>
        rw [hrest] at h
        simp only [Except.bind, Except.ok.injEq] at h
        subst h
        have ihr := ih bs2 hrest
        simp only [List.all_cons, id, Bool.and_eq_true, decide_eq_true_eq, ihr,
          List.mem_cons]
        constructor
        · rintro ⟨h8, hall⟩ x hx
          rcases hx with rfl | hx
          · exact ⟨n, rfl, h8⟩
          · exact hall x hx
        · intro hall
          refine ⟨?_, fun x hx => hall x (Or.inr hx)⟩
          obtain ⟨n2, hn2, h8⟩ := hall (ScoreElem.num n) (Or.inl rfl)
          cases hn2
          exact h8
    | nonNum =>
      exact absurd h (by simp [listCompGE8, cmpGE8, Except.bind])

/-- Helper: a sequence containing a non-comparable element makes the
comprehension raise `TypeError`. -/
theorem listCompGE8_error_of_nonNum : ∀ (l : List ScoreElem),
    ScoreElem.nonNum ∈ l → listCompGE8 l = Except.error PyError.typeError := by
  intro l
  induction l with
  | nil => intro h; exact absurd h (by simp)
  | cons e rest ih =>
    intro h
    cases e with
    | num n =>
      have hrest : ScoreElem.nonNum ∈ rest := by
        rcases List.mem_cons.mp h with h1 | h1
        · exact absurd h1 (by simp)
        · exact h1
      simp [listCompGE8, cmpGE8, Except.bind, ih hrest]
    | nonNum => simp [listCompGE8, cmpGE8, Except.bind]

/-- Helper: a sequence of ratings only makes the comprehension succeed. -/
theorem listCompGE8_ok_of_all_num : ∀ (l : List ScoreElem),
    (∀ e ∈ l, ∃ n, e = ScoreElem.num n) →
    ∃ bs, listCompGE8 l = Except.ok bs := by
  intro l
  induction l with
  | nil => intro _; exact ⟨[], rfl⟩
  | cons e rest ih =>
    intro h
    obtain ⟨n, hn⟩ := h e (by simp)
    obtain ⟨bs, hbs⟩ := ih (fun x hx => h x (by simp [hx]))
    subst hn
    exact ⟨decide (8 ≤ n) :: bs, by simp [listCompGE8, cmpGE8, Except.bind, hbs]⟩

/-- Helper: when the accept test completes, it returns true exactly for a
boolean-true score or a sequence of ratings all meeting the threshold. -/
theorem scoreCondition_ok_true_iff {sc : Score} {b : Bool}
    (h : scoreCondition sc = Except.ok b) :
    (b = true ↔
      sc = Score.boolV true ∨
      ∃ l, sc = Score.seqV l ∧ ∀ e ∈ l, ∃ n, e = ScoreElem.num n ∧ 8 ≤ n) := by
  cases sc with
  | noneV =>
    simp only [scoreCondition, Except.ok.injEq] at h
    subst h
    simp
  | boolV b2 =>
    simp only [scoreCondition, Except.ok.injEq] at h
    subst h
    cases b2 with
    | false => simp
    | true => simp
  | seqV l =>
    simp only [scoreCondition, Except.bind] at h
    cases hl : listCompGE8 l with
    | error er => rw [hl] at h; exact absurd h (by simp)
    | ok bs =>
      rw [hl] at h
      simp only [Except.ok.injEq] at h
      subst h
      rw [listCompGE8_all_iff l bs hl]
      constructor
      · intro hall
        exact Or.inr ⟨l, rfl, hall⟩
      · rintro (hc | ⟨l2, hl2, hall⟩)
        · exact absurd hc (by simp)
        · cases hl2
          exact hall
  | otherV =>
    simp only [scoreCondition, Except.ok.injEq] at h
    subst h
    simp

/-- Helper: a single public operation never clears an already-set
`success` flag. -/
theorem applyOp_success_mono (env : Env) (op : Op) (h : env.success = true) :
    (applyOp env op).success = true := by
  cases op with
  | stepOp o =>
    simp only [applyOp]
    cases hs : step env o with
    | error e => exact h
    | ok out =>
      obtain ⟨r, s, e2⟩ := out
      obtain ⟨_, _, _, _, _, _, _, _, _, _, _, hsucc, _⟩ := step_ok_elim hs
      simp only [hsucc, h, Bool.true_or]
  | resetOp => exact h
  | isDoneOp => exact h
  | setTaskOp t => exact h

/-! ## Claim theorems -/

/-- C3: every round that completes (step returns without raising)
increments `cnt_turn` by exactly 1, whatever the accept/reject outcome. -/
theorem C3_step_increments_turn (env : Env) (o : Oracle) (r : String) (s : Bool)
    (e2 : Env) (h : step env o = Except.ok (r, s, e2)) :
    e2.cnt_turn = env.cnt_turn + 1 := by
  obtain ⟨_, _, _, _, _, _, _, _, _, _, _, _, _, hct, _⟩ := step_ok_elim h
  exact hct

/-- Witness for C3: a concrete accepted round, turn counter 0 to 1. -/
theorem C3_step_increments_turn_witness :
    ({ env0 with success := true, cnt_turn := (1 : Int) }).cnt_turn =
      env0.cnt_turn + 1 :=
  C3_step_increments_turn env0 boolTrueOracle ("standard plan" ++ " executed") true
    { env0 with success := true, cnt_turn := (1 : Int) } (by rfl)

/-- C4: `is_done` is true exactly when the turn budget is exhausted or
`success` is set, and it depends on nothing but `cnt_turn`, `max_turn` and
`success` (being a plain function of the state, it mutates nothing). -/
theorem C4_is_done_iff :
    (∀ env : Env,
      (is_done env = true ↔ (env.max_turn ≤ env.cnt_turn ∨ env.success = true))) ∧
    (∀ e1 e2 : Env, e1.cnt_turn = e2.cnt_turn → e1.max_turn = e2.max_turn →
      e1.success = e2.success → is_done e1 = is_done e2) := by
  constructor
  · intro env
    simp [is_done]
  · intro e1 e2 h1 h2 h3
    simp [is_done, h1, h2, h3]

/-- Witness for C4: a succeeded state is done, and the predicate ignores a
changed task description. -/
theorem C4_is_done_iff_witness :
    is_done (mkEnv fullRoster DMCls.vertical 0 10 true) = true ∧
    is_done (mkEnv fullRoster DMCls.vertical 0 10 true) =
      is_done { mkEnv fullRoster DMCls.vertical 0 10 true with
                  task_description := "another task" } :=
  ⟨(C4_is_done_iff.1 (mkEnv fullRoster DMCls.vertical 0 10 true)).mpr (Or.inr rfl),
   C4_is_done_iff.2 (mkEnv fullRoster DMCls.vertical 0 10 true)
     { mkEnv fullRoster DMCls.vertical 0 10 true with
         task_description := "another task" } rfl rfl rfl⟩

/-- C5: `success` is monotone: once true, no sequence of public operations
(step with any strategy outputs, reset, is_done, set_task_description)
brings it back to false. -/
theorem C5_success_monotone : ∀ (ops : List Op) (env : Env),
    env.success = true → (runOps env ops).success = true := by
  intro ops
  induction ops with
  | nil => intro env h; exact h
  | cons op rest ih =>
    intro env h
    exact ih (applyOp env op) (applyOp_success_mono env op h)

/-- Witness for C5: a session that accepted once still reports success
after a reset followed by a rejected round. -/
theorem C5_success_monotone_witness :
    (runOps { env0 with success := true }
      [Op.resetOp, Op.stepOp boolFalseOracle, Op.isDoneOp]).success = true :=
  C5_success_monotone [Op.resetOp, Op.stepOp boolFalseOracle, Op.isDoneOp]
    { env0 with success := true } rfl

/-- C6: `reset` zeroes `cnt_turn` and changes nothing else: `success`, the
task description, the roster and the four strategy objects (and the turn
budget) all keep their values. -/
theorem C6_reset_frame (env : Env) :
    (reset env).cnt_turn = 0 ∧
    (reset env).success = env.success ∧
    (reset env).task_description = env.task_description ∧
    (reset env).agents = env.agents ∧
    (reset env).role_assigner = env.role_assigner ∧
    (reset env).decision_maker = env.decision_maker ∧
    (reset env).executor = env.executor ∧
    (reset env).evaluator = env.evaluator ∧
    (reset env).max_turn = env.max_turn :=
  ⟨rfl, rfl, rfl, rfl, rfl, rfl, rfl, rfl, rfl⟩

/-- C2: in a round that completes, the new `success` is true exactly when
it was already true or the round accepts: the score is the boolean true or
a sequence of ratings each at least 8.  A score failing both conditions
leaves `success` at its previous value. -/
theorem C2_accept_iff (env : Env) (o : Oracle) (r : String) (s : Bool) (e2 : Env)
    (h : step env o = Except.ok (r, s, e2)) :
    e2.success = true ↔
      (env.success = true ∨
        (o.evalResult r).1 = Score.boolV true ∨
        ∃ l, (o.evalResult r).1 = Score.seqV l ∧
          ∀ e ∈ l, ∃ n, e = ScoreElem.num n ∧ 8 ≤ n) := by
  obtain ⟨_, _, _, _, _, b, _, _, _, _, hsc, hsucc, _⟩ := step_ok_elim h
  rw [hsucc, Bool.or_eq_true]
  constructor
  · rintro (hs | hb)
    · exact Or.inl hs
    · exact Or.inr ((scoreCondition_ok_true_iff hsc).mp hb)
  · rintro (hs | hc)
    · exact Or.inl hs
    · exact Or.inr ((scoreCondition_ok_true_iff hsc).mpr hc)

/-- Witness for C2: the boolean-true score sets success in a concrete
round. -/
theorem C2_accept_iff_witness :
    ({ env0 with success := true, cnt_turn := (1 : Int) }).success = true :=
  (C2_accept_iff env0 boolTrueOracle ("standard plan" ++ " executed") true
      { env0 with success := true, cnt_turn := (1 : Int) } (by rfl)).mpr
    (Or.inr (Or.inl (by rfl)))

/-- C8: when the decision stage yields an empty candidate sequence, the
round aborts with the error the source raises at the `plan[0]` access (a
Python IndexError), the realization of the empty-plan failure. -/
theorem C8_empty_plan (env : Env) (o : Oracle) (ag : List Agent) (proto : Protocol)
    (hra : role_assign env o = Except.ok ag)
    (hd : dispatch env o ag = Except.ok (proto, [])) :
    step env o = Except.error PyError.indexError := by
  unfold step
  rw [hra]
  simp only [Except.bind]
  rw [hd]
  simp only [planFirst, Except.bind]

/-- Witness for C8: a concrete round whose decision maker returns no
candidates. -/
theorem C8_empty_plan_witness :
    step env0 emptyPlanOracle = Except.error PyError.indexError :=
  C8_empty_plan env0 emptyPlanOracle emptyPlanOracle.assignedAgents
    Protocol.standard rfl rfl

/-- C10: an empty score sequence accepts the round — the all-ratings test
holds vacuously — and sets success to true. -/
theorem C10_empty_seq_accepts (env : Env) (o : Oracle) (ag : List Agent)
    (proto : Protocol) (m : Message) (rest : List Message) (ev : PyVal)
    (hra : role_assign env o = Except.ok ag)
    (hd : dispatch env o ag = Except.ok (proto, m :: rest))
    (hev : dictGet env.agents AgentType.EVALUATION = Except.ok ev)
    (hsc : (o.evalResult (o.execResult m.content)).1 = Score.seqV []) :
    step env o = Except.ok (o.execResult m.content, true,
      { env with success := true, cnt_turn := env.cnt_turn + 1 }) := by
  have h1 : scoreCondition (o.evalResult (o.execResult m.content)).1 =
      Except.ok true := by
    rw [hsc]; rfl
  have h2 := step_ok_intro hra hd hev h1
  simpa using h2

/-- Witness for C10: a concrete round scored with an empty sequence is
accepted. -/
theorem C10_empty_seq_accepts_witness :
    step env0 emptySeqOracle = Except.ok ("standard plan" ++ " executed", true,
      { env0 with success := true, cnt_turn := env0.cnt_turn + 1 }) :=
  C10_empty_seq_accepts env0 emptySeqOracle [solverActor, criticActor]
    Protocol.standard ⟨"standard plan"⟩ [] (PyVal.agentV evalActor)
    rfl rfl rfl rfl

/-- C1 counterexample: with a dynamic decision maker and no MANAGER entry
the claim predicts the standard call, but the round aborts with the
KeyError raised by the MANAGER roster lookup before any astep call is
made. -/
theorem C1_counterexample :
    envDyn.decision_maker.cls = DMCls.dynamic ∧
    envDyn.agents AgentType.MANAGER = none ∧
    dispatch envDyn boolTrueOracle boolTrueOracle.assignedAgents =
      Except.error PyError.keyError ∧
    step envDyn boolTrueOracle = Except.error PyError.keyError :=
  ⟨rfl, rfl, rfl, rfl⟩

/-- C1 amended: the manager-guided astep is called iff the decision maker
is the dynamic variant and the MANAGER entry maps to a single actor of
runtime class ManagerAgent; a dynamic decision maker with no MANAGER entry
raises KeyError and calls neither protocol; in every remaining case the
standard astep is called. -/
theorem C1_dispatch_amended (env : Env) (o : Oracle) (ag : List Agent) :
    ((dispatch env o ag).map Prod.fst = Except.ok Protocol.managed ↔
      (env.decision_maker.cls = DMCls.dynamic ∧
        ∃ a, env.agents AgentType.MANAGER = some (PyVal.agentV a) ∧
          a.cls = AgentCls.managerAgent)) ∧
    ((env.decision_maker.cls = DMCls.dynamic ∧
        env.agents AgentType.MANAGER = none) →
      dispatch env o ag = Except.error PyError.keyError) ∧
    ((env.decision_maker.cls ≠ DMCls.dynamic ∨
        (∃ m, env.agents AgentType.MANAGER = some m ∧
          isManagerAgentVal m = false)) →
      (dispatch env o ag).map Prod.fst = Except.ok Protocol.standard) := by
  by_cases hdm : env.decision_maker.cls = DMCls.dynamic
  · cases hm : env.agents AgentType.MANAGER with
    | none =>
      refine ⟨?_, ?_, ?_⟩
      · simp [dispatch, dictGet, hdm, hm, Except.bind, Except.map]
      · intro _
        simp [dispatch, dictGet, hdm, hm, Except.bind]
      · rintro (hc | ⟨m, hm2, _⟩)
        · exact absurd hdm hc
        · exact absurd hm2 (by simp)
    | some m =>
      refine ⟨?_, ?_, ?_⟩
      · cases m with
        | agentV a =>
          cases ha : a.cls with
          | managerAgent =>
            simp [dispatch, dictGet, hdm, hm, Except.bind, Except.map,
              decision_making, isManagerAgentVal, ha]
          | otherAgent =>
            simp [dispatch, dictGet, hdm, hm, Except.bind, Except.map,
              decision_making, isManagerAgentVal, ha]
        | agentListV l =>
          simp [dispatch, dictGet, hdm, hm, Except.bind, Except.map,
            decision_making, isManagerAgentVal]
        | strV str =>
          simp [dispatch, dictGet, hdm, hm, Except.bind, Except.map,
            decision_making, isManagerAgentVal]
      · rintro ⟨_, hnone⟩
        exact absurd hnone (by simp)
      · rintro (hc | ⟨m2, hm2, hfalse⟩)
        · exact absurd hdm hc
        · injection hm2 with hm2
          subst hm2
          simp [dispatch, dictGet, hdm, hm, Except.bind, Except.map,
            decision_making, hfalse]
  · refine ⟨?_, ?_, ?_⟩
    · simp [dispatch, hdm, decision_making, isManagerAgentVal, Except.map]
    · rintro ⟨hc, _⟩
      exact absurd hc hdm
    · intro _
      simp [dispatch, hdm, decision_making, isManagerAgentVal, Except.map]

/-- Witness for the amended C1: the three cases at concrete states —
dynamic without MANAGER raises, non-dynamic goes standard, dynamic with a
ManagerAgent MANAGER entry goes manager-guided. -/
theorem C1_dispatch_amended_witness :
    dispatch envDyn boolTrueOracle [] = Except.error PyError.keyError ∧
    (dispatch env0 boolTrueOracle []).map Prod.fst =
      Except.ok Protocol.standard ∧
    (dispatch envDynManaged boolTrueOracle []).map Prod.fst =
      Except.ok Protocol.managed :=
  ⟨(C1_dispatch_amended envDyn boolTrueOracle []).2.1 ⟨rfl, rfl⟩,
   (C1_dispatch_amended env0 boolTrueOracle []).2.2 (Or.inl (by decide)),
   (C1_dispatch_amended envDynManaged boolTrueOracle []).1.mpr
     ⟨rfl, managerActor, rfl, rfl⟩⟩

/-- C7 counterexample: the role assigner returns an empty roster yet step
raises nothing: the concrete round runs to completion, accepts, and
increments cnt_turn from 0 to 1. -/
theorem C7_counterexample :
    emptyRosterOracle.assignedAgents = [] ∧
    role_assign env0 emptyRosterOracle = Except.ok [] ∧
    step env0 emptyRosterOracle =
      Except.ok ("standard plan" ++ " executed", true,
        { env0 with success := true, cnt_turn := (1 : Int) }) :=
  ⟨rfl, rfl, rfl⟩

/-- C7 amended: step has no emptiness check on the role-assignment
result; an empty roster flows on into decision making, and when the later
stages succeed the round completes and is counted like any other. -/
theorem C7_amended_no_roster_check (env : Env) (o : Oracle) (proto : Protocol)
    (m : Message) (rest : List Message) (ev : PyVal) (b : Bool)
    (hra : role_assign env o = Except.ok [])
    (hd : dispatch env o [] = Except.ok (proto, m :: rest))
    (hev : dictGet env.agents AgentType.EVALUATION = Except.ok ev)
    (hsc : scoreCondition (o.evalResult (o.execResult m.content)).1 =
      Except.ok b) :
    step env o = Except.ok (o.execResult m.content, (env.success || b),
      { env with success := env.success || b, cnt_turn := env.cnt_turn + 1 }) :=
  step_ok_intro hra hd hev hsc

/-- Witness for the amended C7: the concrete empty-roster round completes
with the turn counted. -/
theorem C7_amended_no_roster_check_witness :
    step env0 emptyRosterOracle =
      Except.ok ("standard plan" ++ " executed", (env0.success || true),
        { env0 with success := env0.success || true, cnt_turn := env0.cnt_turn + 1 }) :=
  C7_amended_no_roster_check env0 emptyRosterOracle Protocol.standard
    ⟨"standard plan"⟩ [] (PyVal.agentV evalActor) true rfl rfl rfl rfl

/-- C9 counterexample: a score shaped as a sequence with a non-numeric
element does raise: the threshold comparison is a TypeError and the round
aborts instead of completing as a reject. -/
theorem C9_counterexample :
    (badSeqOracle.evalResult ("standard plan" ++ " executed")).1 =
      Score.seqV [ScoreElem.num 9, ScoreElem.nonNum] ∧
    step env0 badSeqOracle = Except.error PyError.typeError :=
  ⟨rfl, rfl⟩

/-- C9 amended: an absent score (None) or a non-boolean non-sequence
score is rejected without raising and the round completes with success
unchanged; but a sequence containing an element not comparable with the
threshold raises TypeError and aborts the round. -/
theorem C9_amended_malformed (env : Env) (o : Oracle) (ag : List Agent)
    (proto : Protocol) (m : Message) (rest : List Message) (ev : PyVal)
    (hra : role_assign env o = Except.ok ag)
    (hd : dispatch env o ag = Except.ok (proto, m :: rest))
    (hev : dictGet env.agents AgentType.EVALUATION = Except.ok ev) :
    (((o.evalResult (o.execResult m.content)).1 = Score.noneV ∨
        (o.evalResult (o.execResult m.content)).1 = Score.otherV) →
      ∃ s e2, step env o = Except.ok (o.execResult m.content, s, e2) ∧
        s = env.success ∧ e2.success = env.success ∧
        e2.cnt_turn = env.cnt_turn + 1) ∧
    (∀ l, (o.evalResult (o.execResult m.content)).1 = Score.seqV l →
      ScoreElem.nonNum ∈ l →
      step env o = Except.error PyError.typeError) := by
  constructor
  · intro hsh
    have hsc : scoreCondition (o.evalResult (o.execResult m.content)).1 =
        Except.ok false := by
      rcases hsh with hsh | hsh <;> rw [hsh] <;> rfl
    refine ⟨env.success || false,
      { env with success := env.success || false, cnt_turn := env.cnt_turn + 1 },
      step_ok_intro hra hd hev hsc, ?_, ?_, ?_⟩
    · simp
    · simp
    · rfl
  · intro l hl hmem
    have hsc : scoreCondition (o.evalResult (o.execResult m.content)).1 =
        Except.error PyError.typeError := by
      rw [hl]
      simp only [scoreCondition]
      rw [listCompGE8_error_of_nonNum l hmem]
      rfl
    unfold step
    rw [hra]
    simp only [Except.bind]
    rw [hd]
    simp only [planFirst, Except.bind]
    rw [hev]
    simp only [Except.bind]
    rw [hsc]

/-- Witness for the amended C9: a None score completes as a reject, a
mixed sequence raises. -/
theorem C9_amended_malformed_witness :
    (∃ s e2, step env0 noneScoreOracle =
        Except.ok ("standard plan" ++ " executed", s, e2) ∧
      s = env0.success ∧ e2.success = env0.success ∧
      e2.cnt_turn = env0.cnt_turn + 1) ∧
    step env0 badSeqOracle = Except.error PyError.typeError :=
  ⟨(C9_amended_malformed env0 noneScoreOracle [solverActor, criticActor]
      Protocol.standard ⟨"standard plan"⟩ [] (PyVal.agentV evalActor)
      rfl rfl rfl).1 (Or.inl rfl),
   (C9_amended_malformed env0 badSeqOracle [solverActor, criticActor]
      Protocol.standard ⟨"standard plan"⟩ [] (PyVal.agentV evalActor)
      rfl rfl rfl).2 [ScoreElem.num 9, ScoreElem.nonNum] rfl (by simp)⟩

end AgentVerse
